import Mathlib

/-!
Verification of the e-commerce order orchestrator and admission controller.

The definitions below are a shallow embedding of the Rust sources:
  * `src/common/src/ratelimit.rs` — fixed-window admission controller,
  * `src/order/src/order.rs`      — order orchestrator (create / update /
    cancel / get / list),
  * `src/product/src/product.rs`  — catalog price update (only the part the
    price-snapshot property needs).

Machine integers (`i32`, `i64`, `u32`) are modelled as `Int`/`Nat` (the
workloads in the claims never approach overflow), SQL `DECIMAL` money values
as `Rat`, `Instant` timestamps as `Nat`, and the relational tables as Lean
lists of row structures.  RPC collaborators (user service `Verify`, product
service `CheckAvailability`, `GetProductsByIDs`) are abstract functions in an
environment record, because the orchestrator only observes their returned
values.
-/

namespace ECommerce

/-! ### Admission controller (`src/common/src/ratelimit.rs`) -/

/-- Per-client fixed-window counter (`ClientState` in ratelimit.rs). -/
structure ClientState where
  count : Nat
  window_start : Nat
deriving Repr, DecidableEq

/-- Configuration of the controller (`RateLimitConfig` in ratelimit.rs; the
`DashMap` is passed separately). -/
structure RateLimitConfig where
  max_requests : Nat
  window : Nat
deriving Repr, DecidableEq

/-- The `DashMap<String, ClientState>` keyed by client id, as an
association list. -/
abbrev Clients := List (String × ClientState)

def lookupClient (cs : Clients) (cid : String) : Option ClientState :=
  (cs.find? (fun e => e.1 = cid)).map (·.2)

def updateClient (cs : Clients) (cid : String) (st : ClientState) : Clients :=
  cs.map (fun e => if e.1 = cid then (cid, st) else e)

/-- The critical section of `RateLimitService::call`
(`entry(client_id).and_modify(...).or_insert_with(...)`, ratelimit.rs
lines 79–102): returns whether the request is allowed together with the
updated client map.  `now - window_start` is `Instant::duration_since`;
stored `window_start` values never exceed `now`, so truncated subtraction
agrees with it. -/
def rlCall (cfg : RateLimitConfig) (cs : Clients) (cid : String) (now : Nat) :
    Bool × Clients :=
  match lookupClient cs cid with
  | some st =>
    if now - st.window_start > cfg.window then
      (true, updateClient cs cid { count := 1, window_start := now })
    else if st.count < cfg.max_requests then
      (true, updateClient cs cid { st with count := st.count + 1 })
    else
      (false, cs)
  | none => (true, cs ++ [(cid, { count := 1, window_start := now })])

/-- Outcome of one admitted-or-denied call. -/
inductive RLOutcome (α : Type) where
  | tooManyRequests : RLOutcome α
  | handled : α → RLOutcome α
deriving Repr, DecidableEq

/-- The tail of `RateLimitService::call` (lines 106–120): a denied request
short-circuits with 429 and the inner (protected) handler is never invoked;
an allowed one is handed to the inner service. -/
def rateLimitedCall {α : Type} (cfg : RateLimitConfig) (cs : Clients)
    (cid : String) (now : Nat) (handler : α) : RLOutcome α × Clients :=
  let r := rlCall cfg cs cid now
  (if r.1 then RLOutcome.handled handler else RLOutcome.tooManyRequests, r.2)

/-- Run a sequence of `(client_id, now)` requests through the controller,
collecting each allow/deny decision. -/
def rlRun (cfg : RateLimitConfig) (cs : Clients) :
    List (String × Nat) → List Bool × Clients
  | [] => ([], cs)
  | (cid, now) :: rest =>
    let r := rlCall cfg cs cid now
    let rec' := rlRun cfg r.2 rest
    (r.1 :: rec'.1, rec'.2)

/-- The quota invariant (spec §3): every stored counter is at most
`max_requests`. -/
def quotaInv (cfg : RateLimitConfig) (cs : Clients) : Prop :=
  ∀ e ∈ cs, e.2.count ≤ cfg.max_requests

instance (cfg : RateLimitConfig) (cs : Clients) : Decidable (quotaInv cfg cs) :=
  inferInstanceAs (Decidable (∀ e ∈ cs, e.2.count ≤ cfg.max_requests))

/-! ### Order service data model (`src/order/src/order.rs`)

The two order tables plus the shared `products` table that the order service
reads prices from and writes stock to. -/

/-- A row of the `products` table (the columns the order workflow touches). -/
structure DbProduct where
  id : String
  name : String
  price : Rat
  stock_quantity : Int
deriving Repr, DecidableEq

/-- A row of the `orders` table (`DbOrder` in order.rs). -/
structure DbOrder where
  id : String
  user_id : String
  total_amount : Rat
  status : String
  shipping_address : Option String
  created_at : Int
  updated_at : Int
deriving Repr, DecidableEq

/-- A row of the `order_items` table (`DbOrderItem` in order.rs). -/
structure DbOrderItem where
  id : String
  order_id : String
  product_id : String
  quantity : Int
  price : Rat
deriving Repr, DecidableEq

/-- The relational store shared by the order and product services. -/
structure Db where
  orders : List DbOrder
  order_items : List DbOrderItem
  products : List DbProduct
deriving Repr, DecidableEq

/-- The six order statuses (proto enum `OrderStatus`). -/
inductive OrderStatus where
  | Pending
  | Confirmed
  | Processing
  | Shipped
  | Delivered
  | Cancelled
deriving Repr, DecidableEq

/-- Modelled from the spec: the wire numbering of the protobuf `OrderStatus`
enum (`order.proto` is not under src/).  The spec lists exactly the six
statuses Pending, Confirmed, Processing, Shipped, Delivered, Cancelled; the
Rust `status_to_string` matches exactly these six variants exhaustively, so
the generated enum has no extra unspecified variant, and proto3 numbers the
first declared value 0.  Hence Pending = 0, …, Cancelled = 5. -/
def orderStatusToI32 : OrderStatus → Int
  | .Pending => 0
  | .Confirmed => 1
  | .Processing => 2
  | .Shipped => 3
  | .Delivered => 4
  | .Cancelled => 5

/-- Modelled from the spec: prost's generated `OrderStatus::try_from(i32)`,
defined exactly on the six wire values of `orderStatusToI32`. -/
def orderStatusFromI32 (n : Int) : Option OrderStatus :=
  if n = 0 then some .Pending
  else if n = 1 then some .Confirmed
  else if n = 2 then some .Processing
  else if n = 3 then some .Shipped
  else if n = 4 then some .Delivered
  else if n = 5 then some .Cancelled
  else none

/-- Translation of `status_to_string` in order.rs (lines 62–72). -/
def status_to_string : OrderStatus → String
  | .Pending => "PENDING"
  | .Confirmed => "CONFIRMED"
  | .Processing => "PROCESSING"
  | .Shipped => "SHIPPED"
  | .Delivered => "DELIVERED"
  | .Cancelled => "CANCELLED"

/-- Translation of `status_to_proto` in order.rs (lines 50–60): unknown
strings fall back to `Pending`. -/
def status_to_proto (s : String) : OrderStatus :=
  if s = "PENDING" then .Pending
  else if s = "CONFIRMED" then .Confirmed
  else if s = "PROCESSING" then .Processing
  else if s = "SHIPPED" then .Shipped
  else if s = "DELIVERED" then .Delivered
  else if s = "CANCELLED" then .Cancelled
  else .Pending

/-- Results of the two remote collaborator calls the orchestrator makes
during validation.  The orchestrator only observes the returned booleans, so
they are abstract functions. -/
structure Env where
  verifyUser : String → Bool
  checkAvailability : String → Int → Bool

/-- One requested line item of `CreateOrderRequest`. -/
structure OrderItemReq where
  product_id : String
  quantity : Int
deriving Repr, DecidableEq

/-- proto `CreateOrderRequest`. -/
structure CreateOrderRequest where
  user_id : String
  items : List OrderItemReq
  shipping_address : String
deriving Repr, DecidableEq

/-- proto `OrderItem` (the read model returned to callers). -/
structure OrderItem where
  product_id : String
  product_name : String
  quantity : Int
  unit_price : Rat
  subtotal : Rat
deriving Repr, DecidableEq

/-- proto `Order`. -/
structure Order where
  order_id : String
  user_id : String
  items : List OrderItem
  total_amount : Rat
  status : Int
  shipping_address : String
  created_at : Int
  updated_at : Int
deriving Repr, DecidableEq

/-- proto `CreateOrderResponse`. -/
structure CreateOrderResponse where
  success : Bool
  message : String
  order_id : String
  order : Option Order
deriving Repr, DecidableEq

/-! ### Read helpers of the orchestrator -/

/-- Translation of `get_product_price` in order.rs (lines 206–215): reads the shared
`products` table directly (`SELECT price FROM products WHERE id = $1`,
`fetch_optional`). -/
def get_product_price (db : Db) (pid : String) : Option Rat :=
  (db.products.find? (fun p => p.id = pid)).map (·.price)

/-- The name map assembled by product.rs `get_products_by_ids` (the batch
Catalog lookup used for re-hydration); the product service reads the same
shared `products` table. -/
def productNameInDb (db : Db) (pid : String) : Option String :=
  (db.products.find? (fun p => p.id = pid)).map (·.name)

/-- Translation of `get_order_items` in order.rs (lines 103–137): select the line items of
an order, re-hydrate display names via the batch catalog lookup, and compute
`subtotal = price * quantity` from the **stored** item price. -/
def get_order_items (db : Db) (oid : String) : List OrderItem :=
  (db.order_items.filter (fun it => it.order_id = oid)).map (fun it =>
    { product_id := it.product_id
      product_name := (productNameInDb db it.product_id).getD ""
      quantity := it.quantity
      unit_price := it.price
      subtotal := it.price * (it.quantity : Rat) })

/-- Translation of `db_order_to_proto` in order.rs (lines 139–156). -/
def db_order_to_proto (db : Db) (o : DbOrder) : Order :=
  { order_id := o.id
    user_id := o.user_id
    items := get_order_items db o.id
    total_amount := o.total_amount
    status := orderStatusToI32 (status_to_proto o.status)
    shipping_address := o.shipping_address.getD ""
    created_at := o.created_at
    updated_at := o.updated_at }

/-! ### CreateOrder (order.rs lines 220–385) -/

/-- The per-item validation loop of `create_order` (lines 259–302): for each
item in order, reject non-positive quantity, then ask the catalog RPC for
availability, then read the current price from the shared `products` table;
the first failure aborts the whole request.  On success it returns the
`validated_items` list of `(item, price)` pairs. -/
def validateItems (env : Env) (db : Db) :
    List OrderItemReq → Except String (List (OrderItemReq × Rat))
  | [] => Except.ok []
  | it :: rest =>
    if it.quantity ≤ 0 then
      Except.error ("Invalid quantity for product " ++ it.product_id)
    else if ¬ env.checkAvailability it.product_id it.quantity then
      Except.error ("Product " ++ it.product_id ++ " not available in requested quantity")
    else
      match get_product_price db it.product_id with
      | none => Except.error ("Product " ++ it.product_id ++ " not found")
      | some p =>
        match validateItems env db rest with
        | Except.error e => Except.error e
        | Except.ok v => Except.ok ((it, p) :: v)

/-- The pre-transaction phase of `create_order` (lines 226–302): empty user
id, empty item list, a negative `Verify` answer, then the per-item loop.
Every early `return` of the Rust code is an `error` branch here. -/
def validate_request (env : Env) (db : Db) (req : CreateOrderRequest) :
    Except String (List (OrderItemReq × Rat)) :=
  if req.user_id = "" then Except.error "User ID is required"
  else if req.items = [] then Except.error "Order must contain at least one item"
  else if ¬ env.verifyUser req.user_id then Except.error "User not found"
  else validateItems env db req.items

/-- The running `total_amount` accumulated over the validated items
(line 298–299: `subtotal = price * quantity; total_amount += subtotal`). -/
def orderTotal (v : List (OrderItemReq × Rat)) : Rat :=
  (v.map (fun ip => ip.2 * (ip.1.quantity : Rat))).sum

/-- The statement `UPDATE products SET stock_quantity = stock_quantity - q
WHERE id = pid` (line 353–354). -/
def decStock (ps : List DbProduct) (pid : String) (q : Int) : List DbProduct :=
  ps.map (fun p => if p.id = pid then { p with stock_quantity := p.stock_quantity - q } else p)

/-- The statement `UPDATE products SET stock_quantity = stock_quantity + q
WHERE id = pid` (cancel path, line 529–530). -/
def incStock (ps : List DbProduct) (pid : String) (q : Int) : List DbProduct :=
  ps.map (fun p => if p.id = pid then { p with stock_quantity := p.stock_quantity + q } else p)

/-- The `order_items` rows inserted by the persistence loop (lines 334–350),
in request order; `itemId k` stands for the fresh UUID of the k-th row. -/
def newItemRows (itemId : Nat → String) (oid : String) :
    List (OrderItemReq × Rat) → Nat → List DbOrderItem
  | [], _ => []
  | (it, p) :: rest, k =>
    { id := itemId k
      order_id := oid
      product_id := it.product_id
      quantity := it.quantity
      price := p } :: newItemRows itemId oid rest (k + 1)

/-- The inventory decrements of the persistence loop (lines 352–360), one
per validated item, in request order. -/
def applyDecStock (ps : List DbProduct) (v : List (OrderItemReq × Rat)) : List DbProduct :=
  v.foldl (fun acc ip => decStock acc ip.1.product_id ip.1.quantity) ps

/-- Total quantity a request orders for one product (a product can appear in
several line items; each occurrence decrements stock once). -/
def orderedQty (items : List OrderItemReq) (pid : String) : Int :=
  (items.map (fun it => if pid = it.product_id then it.quantity else 0)).sum

/-- Total quantity a set of stored line items restores to one product on
cancellation. -/
def restoredQty (items : List DbOrderItem) (pid : String) : Int :=
  (items.map (fun it => if pid = it.product_id then it.quantity else 0)).sum

/-- Translation of `create_order` (order.rs lines 220–385).  `orderId` stands for the fresh
`Uuid::new_v4` of the order row and `itemId k` for the k-th item row's UUID;
`now` is `CURRENT_TIMESTAMP`.  On any validation failure the function
returns `success = false` before the transaction is opened, leaving the
store untouched; otherwise one transaction inserts the order row
(status `"PENDING"`), the item rows, and the stock decrements, and commits.
The committed order is then re-fetched (`fetch_one` necessarily finds the
first row with that id — the just-inserted one when the id is fresh) and
re-hydrated. -/
def create_order (env : Env) (db : Db) (req : CreateOrderRequest)
    (orderId : String) (itemId : Nat → String) (now : Int) :
    CreateOrderResponse × Db :=
  match validate_request env db req with
  | Except.error msg =>
    ({ success := false, message := msg, order_id := "", order := none }, db)
  | Except.ok vitems =>
    let orderRow : DbOrder :=
      { id := orderId
        user_id := req.user_id
        total_amount := orderTotal vitems
        status := "PENDING"
        shipping_address :=
          if req.shipping_address = "" then none else some req.shipping_address
        created_at := now
        updated_at := now }
    let db2 : Db :=
      { orders := db.orders ++ [orderRow]
        order_items := db.order_items ++ newItemRows itemId orderId vitems 0
        products := applyDecStock db.products vitems }
    let fetched := (db2.orders.find? (fun o => o.id = orderId)).getD orderRow
    ({ success := true
       message := "Order created successfully"
       order_id := orderId
       order := some (db_order_to_proto db2 fetched) }, db2)

/-! ### UpdateOrder (order.rs lines 387–444) -/

/-- proto `UpdateOrderRequest` (`status` is the raw i32 wire value). -/
structure UpdateOrderRequest where
  order_id : String
  status : Int
  shipping_address : String
deriving Repr, DecidableEq

/-- proto `UpdateOrderResponse`. -/
structure UpdateOrderResponse where
  success : Bool
  message : String
  order : Option Order
deriving Repr, DecidableEq

/-- Translation of `update_order` (order.rs lines 387–444): reject an empty order id;
coerce the wire status with `try_from(..).unwrap_or(Pending)`; run
`UPDATE orders SET status = $1, shipping_address = $2, updated_at = now
WHERE id = $3` where an empty request address binds SQL NULL; report
"Order not found" when no row matched; otherwise re-fetch and return the
updated order. -/
def update_order (db : Db) (req : UpdateOrderRequest) (now : Int) :
    UpdateOrderResponse × Db :=
  if req.order_id = "" then
    ({ success := false, message := "Order ID is required", order := none }, db)
  else
    let status_str := status_to_string ((orderStatusFromI32 req.status).getD .Pending)
    let newAddr : Option String :=
      if req.shipping_address = "" then none else some req.shipping_address
    let db2 : Db :=
      { db with
        orders := db.orders.map (fun o =>
          if o.id = req.order_id then
            { o with status := status_str, shipping_address := newAddr, updated_at := now }
          else o) }
    if db.orders.all (fun o => ¬ o.id = req.order_id) then
      ({ success := false, message := "Order not found", order := none }, db2)
    else
      match db2.orders.find? (fun o => o.id = req.order_id) with
      | none => ({ success := false, message := "Order not found", order := none }, db2)
      | some o =>
        ({ success := true
           message := "Order updated successfully"
           order := some (db_order_to_proto db2 o) }, db2)

/-! ### CancelOrder (order.rs lines 446–556) -/

/-- proto `CancelOrderRequest`. -/
structure CancelOrderRequest where
  order_id : String
  user_id : String
deriving Repr, DecidableEq

/-- proto `CancelOrderResponse`. -/
structure CancelOrderResponse where
  success : Bool
  message : String
deriving Repr, DecidableEq

/-- The inventory restoration loop of `cancel_order` (lines 528–537): for
every fetched line item, add its quantity back to catalog stock. -/
def applyIncStock (ps : List DbProduct) (items : List DbOrderItem) : List DbProduct :=
  items.foldl (fun acc it => incStock acc it.product_id it.quantity) ps

/-- Translation of `cancel_order` (order.rs lines 446–556): inside one transaction, fetch
the order by id (reject if absent), reject a non-empty caller user id that
differs from the owner, reject status already `"CANCELLED"` or
`"DELIVERED"` — every rejection rolls the transaction back, leaving the
store unchanged.  Otherwise restore every line item's quantity to stock,
set the status to `"CANCELLED"`, and commit. -/
def cancel_order (db : Db) (req : CancelOrderRequest) (now : Int) :
    CancelOrderResponse × Db :=
  if req.order_id = "" then
    ({ success := false, message := "Order ID is required" }, db)
  else
    match db.orders.find? (fun o => o.id = req.order_id) with
    | none => ({ success := false, message := "Order not found" }, db)
    | some o =>
      if ¬ req.user_id = "" ∧ ¬ o.user_id = req.user_id then
        ({ success := false, message := "Order does not belong to this user" }, db)
      else if o.status = "CANCELLED" then
        ({ success := false, message := "Order is already cancelled" }, db)
      else if o.status = "DELIVERED" then
        ({ success := false, message := "Cannot cancel delivered order" }, db)
      else
        let items := db.order_items.filter (fun it => it.order_id = req.order_id)
        let db2 : Db :=
          { db with
            products := applyIncStock db.products items
            orders := db.orders.map (fun x =>
              if x.id = req.order_id then
                { x with status := "CANCELLED", updated_at := now }
              else x) }
        ({ success := true, message := "Order cancelled successfully" }, db2)

/-! ### ListOrders (order.rs lines 598–671) -/

/-- proto `ListOrdersRequest`. -/
structure ListOrdersRequest where
  page : Int
  page_size : Int
  status : Int
deriving Repr, DecidableEq

/-- proto `ListOrdersResponse`. -/
structure ListOrdersResponse where
  success : Bool
  message : String
  orders : List Order
  total_count : Int
deriving Repr, DecidableEq

/-- Insert one order into a list kept sorted by `created_at` descending
(stable, matching `ORDER BY created_at DESC`). -/
def insertByCreatedDesc (o : DbOrder) : List DbOrder → List DbOrder
  | [] => [o]
  | x :: xs =>
    if o.created_at ≥ x.created_at then o :: x :: xs else x :: insertByCreatedDesc o xs

/-- The clause `ORDER BY created_at DESC` as an insertion sort. -/
def sortByCreatedDesc (l : List DbOrder) : List DbOrder :=
  l.foldr insertByCreatedDesc []

/-- The clause `LIMIT page_size OFFSET (page-1)*page_size` over a sorted row list;
offsets are the nonnegative products of the sanitised page numbers. -/
def paginate (l : List DbOrder) (offset size : Nat) : List DbOrder :=
  (l.drop offset).take size

/-- Translation of `list_orders` (order.rs lines 598–671): sanitise page (≤ 0 → 1) and
page size (≤ 0 or > 100 → 10); when the wire status is 0 list every order
and count all rows, otherwise coerce the status with
`try_from(..).unwrap_or(Pending)` and filter rows by the resulting status
string, counting the matching rows. -/
def list_orders (db : Db) (req : ListOrdersRequest) : ListOrdersResponse :=
  let page : Int := if req.page ≤ 0 then 1 else req.page
  let page_size : Int := if req.page_size ≤ 0 ∨ req.page_size > 100 then 10 else req.page_size
  let offset : Int := (page - 1) * page_size
  let status_str := status_to_string ((orderStatusFromI32 req.status).getD .Pending)
  let rows :=
    if req.status = 0 then sortByCreatedDesc db.orders
    else sortByCreatedDesc (db.orders.filter (fun o => o.status = status_str))
  let total : Int :=
    if req.status = 0 then db.orders.length
    else (db.orders.filter (fun o => o.status = status_str)).length
  let pageRows := paginate rows offset.toNat page_size.toNat
  { success := true
    message := "Retrieved " ++ toString pageRows.length ++ " orders"
    orders := pageRows.map (db_order_to_proto db)
    total_count := total }

/-! ### Catalog price update (`src/product/src/product.rs`, `update_product`)

Only the price column matters to the snapshot property; `update_product`
runs `UPDATE products SET … price = $3 … WHERE id = $6` against the shared
`products` table. -/

/-- A later catalog price change for one product. -/
def setPrice (db : Db) (pid : String) (newPrice : Rat) : Db :=
  { db with
    products := db.products.map (fun p =>
      if p.id = pid then { p with price := newPrice } else p) }

/-! ### Interaction channels of `create_order`

Every statement of the workflow goes through one of two channels: a round
trip over a collaborator's RPC client, or a direct sqlx statement against
the shared store (`self.db`).  The trace below lists, in program order, the
interactions `create_order` performs, exactly as they appear in order.rs. -/

/-- The channel an interaction travels over. -/
inductive Chan where
  | rpc
  | directDb
deriving Repr, DecidableEq

/-- One observable interaction of the create-order workflow. -/
inductive Access where
  | verifyUser (uid : String)
  | checkAvailability (pid : String) (qty : Int)
  | readPrice (pid : String)
  | insertOrder (oid : String)
  | insertItem (oid pid : String)
  | decStockWrite (pid : String) (qty : Int)
  | fetchOrder (oid : String)
  | productsByIds (pids : List String)
deriving Repr, DecidableEq

/-- The channel each interaction uses in order.rs: `verify_user_by_id`,
`check_product_availability` and `get_products_by_ids` go through
`UserServiceClient`/`ProductServiceClient` RPC stubs, while
`get_product_price`, the three insert/update statements, and the re-fetch
are sqlx statements on `self.db`. -/
def Access.chan : Access → Chan
  | .verifyUser _ => .rpc
  | .checkAvailability _ _ => .rpc
  | .readPrice _ => .directDb
  | .insertOrder _ => .directDb
  | .insertItem _ _ => .directDb
  | .decStockWrite _ _ => .directDb
  | .fetchOrder _ => .directDb
  | .productsByIds _ => .rpc

/-- Whether an interaction reads a product price. -/
def Access.isPriceRead : Access → Bool
  | .readPrice _ => true
  | _ => false

/-- Whether an interaction checks product availability. -/
def Access.isAvailCheck : Access → Bool
  | .checkAvailability _ _ => true
  | _ => false

/-- Whether an interaction writes a stock decrement. -/
def Access.isStockWrite : Access → Bool
  | .decStockWrite _ _ => true
  | _ => false

/-- The interactions of the per-item validation loop (order.rs lines
259–302), in program order, stopping at the first failing item. -/
def validateItemsTrace (env : Env) (db : Db) : List OrderItemReq → List Access
  | [] => []
  | it :: rest =>
    if it.quantity ≤ 0 then []
    else
      Access.checkAvailability it.product_id it.quantity ::
        (if ¬ env.checkAvailability it.product_id it.quantity then []
         else
           Access.readPrice it.product_id ::
             (match get_product_price db it.product_id with
              | none => []
              | some _ => validateItemsTrace env db rest))

/-- The interactions of the persistence loop (order.rs lines 334–361): one
item insert followed by one stock decrement per validated item. -/
def persistTrace (oid : String) : List (OrderItemReq × Rat) → List Access
  | [] => []
  | ip :: rest =>
    Access.insertItem oid ip.1.product_id ::
      Access.decStockWrite ip.1.product_id ip.1.quantity :: persistTrace oid rest

/-- The complete interaction trace of `create_order` (order.rs lines
220–385), in program order, truncated at the first rejection. -/
def create_order_trace (env : Env) (db : Db) (req : CreateOrderRequest)
    (orderId : String) : List Access :=
  if req.user_id = "" then []
  else if req.items = [] then []
  else
    Access.verifyUser req.user_id ::
      (if ¬ env.verifyUser req.user_id then []
       else
         validateItemsTrace env db req.items ++
           (match validateItems env db req.items with
            | Except.error _ => []
            | Except.ok vitems =>
              Access.insertOrder orderId ::
                (persistTrace orderId vitems ++
                  [Access.fetchOrder orderId,
                   Access.productsByIds (vitems.map (fun ip => ip.1.product_id))])))

/-- The two per-item reads the spec describes, in the order the code issues
them: an availability check then a price read for every item. -/
def perItemReads : List OrderItemReq → List Access
  | [] => []
  | it :: rest =>
    Access.checkAvailability it.product_id it.quantity ::
      Access.readPrice it.product_id :: perItemReads rest

/-! ## Helper lemmas -/

lemma validateItems_ok_sound (env : Env) (db : Db) :
    ∀ (items : List OrderItemReq) (v : List (OrderItemReq × Rat)),
      validateItems env db items = Except.ok v →
      ∀ it ∈ items, 0 < it.quantity ∧
        env.checkAvailability it.product_id it.quantity = true ∧
        get_product_price db it.product_id ≠ none := by
  intro items
  induction items with
  | nil =>
    intro v _ it hit
    simp at hit
  | cons a rest ih =>
    intro v hv it hit
    simp only [validateItems] at hv
    by_cases h1 : a.quantity ≤ 0
    · simp [h1] at hv
    · by_cases h2 : env.checkAvailability a.product_id a.quantity
      · cases hp : get_product_price db a.product_id with
        | none =>
          rw [hp] at hv
          simp [h1, h2] at hv
        | some p =>
          rw [hp] at hv
          simp only [h1, h2, if_false, if_neg, not_false_iff, not_true,
            ite_false, ite_true] at hv
          cases hr : validateItems env db rest with
          | error e =>
            rw [hr] at hv
            simp [h1, h2] at hv
          | ok v2 =>
            rw [hr] at hv
            rcases List.mem_cons.mp hit with rfl | hmem
            · exact ⟨by omega, by simpa using h2, by simp [hp]⟩
            · exact ih v2 hr it hmem
      · simp [h1, h2] at hv

lemma validate_request_error_of (env : Env) (db : Db) (req : CreateOrderRequest)
    (h : req.user_id = "" ∨ req.items = [] ∨ env.verifyUser req.user_id = false ∨
      ∃ it ∈ req.items, it.quantity ≤ 0 ∨
        env.checkAvailability it.product_id it.quantity = false ∨
        get_product_price db it.product_id = none) :
    ∃ msg, validate_request env db req = Except.error msg := by
  cases hv : validate_request env db req with
  | error msg => exact ⟨msg, rfl⟩
  | ok v =>
    exfalso
    rw [validate_request] at hv
    by_cases h1 : req.user_id = ""
    · simp [h1] at hv
    · by_cases h2 : req.items = []
      · simp [h1, h2] at hv
      · by_cases h3 : env.verifyUser req.user_id
        · simp only [h1, h2, h3, if_neg, not_false_iff, ite_false, ite_true,
            not_true, if_false] at hv
          rcases h with h | h | h | h
          · exact h1 h
          · exact h2 h
          · rw [h] at h3
            simp at h3
          · obtain ⟨it, hmem, hbad⟩ := h
            have hs := validateItems_ok_sound env db req.items v hv it hmem
            rcases hbad with hb | hb | hb
            · omega
            · rw [hs.2.1] at hb
              simp at hb
            · exact hs.2.2 hb
        · simp [h1, h2, h3] at hv

lemma quotaInv_updateClient (cfg : RateLimitConfig) (cs : Clients)
    (hinv : quotaInv cfg cs) (cid : String) (st : ClientState)
    (hst : st.count ≤ cfg.max_requests) :
    quotaInv cfg (updateClient cs cid st) := by
  intro e he
  simp only [updateClient, List.mem_map] at he
  obtain ⟨x, hx, hxe⟩ := he
  by_cases h : x.1 = cid
  · simp only [h, if_pos] at hxe
    subst hxe
    exact hst
  · simp only [h, if_neg, not_false_iff] at hxe
    subst hxe
    exact hinv x hx

lemma update_order_result (db : Db) (req : UpdateOrderRequest) (now : Int)
    (hid : ¬ req.order_id = "") (hex : ∃ o ∈ db.orders, o.id = req.order_id) :
    (update_order db req now).1.success = true ∧
    (update_order db req now).2.orders = db.orders.map (fun o =>
      if o.id = req.order_id then
        { o with
          status := status_to_string ((orderStatusFromI32 req.status).getD .Pending),
          shipping_address :=
            if req.shipping_address = "" then none else some req.shipping_address,
          updated_at := now }
      else o) ∧
    (update_order db req now).2.order_items = db.order_items ∧
    (update_order db req now).2.products = db.products := by
  obtain ⟨o, ho, hoid⟩ := hex
  have hall : (db.orders.all (fun x => ¬ x.id = req.order_id)) = false := by
    cases hall2 : db.orders.all (fun x => ¬ x.id = req.order_id) with
    | false => rfl
    | true =>
      exfalso
      have h2 := List.all_eq_true.mp hall2 o ho
      simp [hoid] at h2
  have hfind : ((db.orders.map (fun o =>
      if o.id = req.order_id then
        { o with
          status := status_to_string ((orderStatusFromI32 req.status).getD .Pending),
          shipping_address :=
            if req.shipping_address = "" then none else some req.shipping_address,
          updated_at := now }
      else o)).find? (fun x => x.id = req.order_id)).isSome := by
    rw [List.find?_isSome]
    refine ⟨_, List.mem_map_of_mem _ ho, ?_⟩
    simp [hoid]
  rw [update_order]
  rw [if_neg hid]
  simp only [hall, Bool.false_eq_true, if_false]
  cases hfind2 : ((db.orders.map (fun o =>
      if o.id = req.order_id then
        { o with
          status := status_to_string ((orderStatusFromI32 req.status).getD .Pending),
          shipping_address :=
            if req.shipping_address = "" then none else some req.shipping_address,
          updated_at := now }
      else o)).find? (fun x => x.id = req.order_id)) with
  | none =>
    rw [hfind2] at hfind
    simp at hfind
  | some o2 =>
    simp only [hfind2]
    refine ⟨?_, ?_, ?_, ?_⟩ <;> first | rfl | trivial

lemma find?_fresh_append (orders : List DbOrder) (row : DbOrder) (oid : String)
    (hfresh : ∀ o ∈ orders, ¬ o.id = oid) (hrow : row.id = oid) :
    (orders ++ [row]).find? (fun o => o.id = oid) = some row := by
  induction orders with
  | nil =>
    rw [List.nil_append]
    exact List.find?_cons_of_pos _ (by simp [hrow])
  | cons a t ih =>
    have ha : ¬ a.id = oid := hfresh a (List.mem_cons_self _ _)
    rw [List.cons_append, List.find?_cons_of_neg _ (by simp [ha])]
    exact ih (fun o ho => hfresh o (List.mem_cons_of_mem _ ho))

lemma filter_fresh_append (olds news : List DbOrderItem) (oid : String)
    (hold : ∀ it ∈ olds, ¬ it.order_id = oid)
    (hnew : ∀ it ∈ news, it.order_id = oid) :
    (olds ++ news).filter (fun it => it.order_id = oid) = news := by
  induction olds with
  | nil =>
    rw [List.nil_append]
    induction news with
    | nil => rfl
    | cons b u ihb =>
      rw [List.filter_cons_of_pos (by simp [hnew b (List.mem_cons_self _ _)])]
      rw [ihb (fun it hit => hnew it (List.mem_cons_of_mem _ hit))]
  | cons a t ih =>
    rw [List.cons_append,
      List.filter_cons_of_neg (by simp [hold a (List.mem_cons_self _ _)])]
    exact ih (fun it hit => hold it (List.mem_cons_of_mem _ hit))

lemma newItemRows_order_id (itemId : Nat → String) (oid : String) :
    ∀ (v : List (OrderItemReq × Rat)) (k : Nat),
      ∀ r ∈ newItemRows itemId oid v k, r.order_id = oid := by
  intro v
  induction v with
  | nil =>
    intro k r hr
    simp [newItemRows] at hr
  | cons ip rest ih =>
    intro k r hr
    simp only [newItemRows] at hr
    rcases List.mem_cons.mp hr with rfl | h2
    · rfl
    · exact ih (k + 1) r h2

lemma newItemRows_sum (itemId : Nat → String) (oid : String) :
    ∀ (v : List (OrderItemReq × Rat)) (k : Nat),
      ((newItemRows itemId oid v k).map
        (fun it => it.price * (it.quantity : Rat))).sum = orderTotal v := by
  intro v
  induction v with
  | nil => intro k; rfl
  | cons ip rest ih =>
    intro k
    simp only [newItemRows, List.map_cons, List.sum_cons, orderTotal] at ih ⊢
    rw [ih (k + 1)]

lemma validateItems_ok_fst (env : Env) (db : Db) :
    ∀ (items : List OrderItemReq) (v : List (OrderItemReq × Rat)),
      validateItems env db items = Except.ok v → v.map Prod.fst = items := by
  intro items
  induction items with
  | nil =>
    intro v hv
    simp only [validateItems] at hv
    injection hv with h
    rw [← h]
    rfl
  | cons a rest ih =>
    intro v hv
    simp only [validateItems] at hv
    by_cases h1 : a.quantity ≤ 0
    · simp [h1] at hv
    · by_cases h2 : env.checkAvailability a.product_id a.quantity
      · cases hp : get_product_price db a.product_id with
        | none =>
          rw [hp] at hv
          simp [h1, h2] at hv
        | some p =>
          rw [hp] at hv
          simp only [h1, h2, if_false, if_neg, not_false_iff, not_true,
            ite_false, ite_true] at hv
          cases hr : validateItems env db rest with
          | error e =>
            rw [hr] at hv
            simp [h1, h2] at hv
          | ok v2 =>
            rw [hr] at hv
            have hv2 : v = (a, p) :: v2 := by
              simp [h1, h2] at hv
              exact hv.symm
            subst hv2
            simp [ih v2 hr]
      · simp [h1, h2] at hv

lemma validate_request_ok_parts (env : Env) (db : Db) (req : CreateOrderRequest)
    (v : List (OrderItemReq × Rat))
    (hv : validate_request env db req = Except.ok v) :
    ¬ req.user_id = "" ∧ validateItems env db req.items = Except.ok v := by
  rw [validate_request] at hv
  by_cases h1 : req.user_id = ""
  · simp [h1] at hv
  · by_cases h2 : req.items = []
    · simp [h1, h2] at hv
    · by_cases h3 : env.verifyUser req.user_id
      · exact ⟨h1, by simpa [h1, h2, h3] using hv⟩
      · simp [h1, h2, h3] at hv

lemma applyDecStock_eq_map :
    ∀ (v : List (OrderItemReq × Rat)) (ps : List DbProduct),
      applyDecStock ps v = ps.map (fun p =>
        { p with stock_quantity := p.stock_quantity - orderedQty (v.map Prod.fst) p.id }) := by
  intro v
  induction v with
  | nil =>
    intro ps
    show ps = _
    have hf : (fun p : DbProduct =>
        { p with stock_quantity :=
            p.stock_quantity -
              orderedQty (List.map Prod.fst ([] : List (OrderItemReq × Rat))) p.id }) =
        fun p : DbProduct => p := by
      funext p
      simp [orderedQty]
    rw [hf]
    simp
  | cons ip rest ih =>
    intro ps
    show applyDecStock (decStock ps ip.1.product_id ip.1.quantity) rest = _
    rw [ih, decStock, List.map_map]
    congr 1
    funext p
    obtain ⟨a, b, c, d⟩ := p
    by_cases hp : a = ip.1.product_id
    · simp [Function.comp, hp, orderedQty]
      omega
    · simp [Function.comp, hp, orderedQty]

lemma applyIncStock_eq_map :
    ∀ (rows : List DbOrderItem) (ps : List DbProduct),
      applyIncStock ps rows = ps.map (fun p =>
        { p with stock_quantity := p.stock_quantity + restoredQty rows p.id }) := by
  intro rows
  induction rows with
  | nil =>
    intro ps
    show ps = _
    have hf : (fun p : DbProduct =>
        { p with stock_quantity := p.stock_quantity + restoredQty [] p.id }) =
        fun p : DbProduct => p := by
      funext p
      simp [restoredQty]
    rw [hf]
    simp
  | cons it rest ih =>
    intro ps
    show applyIncStock (incStock ps it.product_id it.quantity) rest = _
    rw [ih, incStock, List.map_map]
    congr 1
    funext p
    obtain ⟨a, b, c, d⟩ := p
    by_cases hp : a = it.product_id
    · simp [Function.comp, hp, restoredQty]
      omega
    · simp [Function.comp, hp, restoredQty]

lemma restoredQty_newItemRows (itemId : Nat → String) (oid : String) :
    ∀ (v : List (OrderItemReq × Rat)) (k : Nat) (pid : String),
      restoredQty (newItemRows itemId oid v k) pid =
        orderedQty (v.map Prod.fst) pid := by
  intro v
  induction v with
  | nil => intro k pid; rfl
  | cons ip rest ih =>
    intro k pid
    simp only [newItemRows, restoredQty, orderedQty, List.map_cons, List.sum_cons]
    have h := ih (k + 1) pid
    simp only [restoredQty, orderedQty] at h
    rw [h]

lemma cancel_order_success_eval (db2 : Db) (creq : CancelOrderRequest)
    (now2 : Int) (row : DbOrder) (rows : List DbOrderItem)
    (hOid : ¬ creq.order_id = "")
    (hfind : db2.orders.find? (fun o => o.id = creq.order_id) = some row)
    (hucond : ¬ (¬ creq.user_id = "" ∧ ¬ row.user_id = creq.user_id))
    (hc : ¬ row.status = "CANCELLED") (hd : ¬ row.status = "DELIVERED")
    (hitems : db2.order_items.filter (fun it => it.order_id = creq.order_id) = rows) :
    (cancel_order db2 creq now2).1.success = true ∧
    (cancel_order db2 creq now2).2.products = applyIncStock db2.products rows := by
  rw [cancel_order, if_neg hOid, hfind]
  simp only [if_neg hucond, if_neg hc, if_neg hd, hitems]
  refine ⟨?_, ?_⟩ <;> first | rfl | trivial

lemma mem_insertByCreatedDesc (o x : DbOrder) :
    ∀ l : List DbOrder, x ∈ insertByCreatedDesc o l → x = o ∨ x ∈ l := by
  intro l
  induction l with
  | nil =>
    intro h
    simp [insertByCreatedDesc] at h
    exact Or.inl h
  | cons a t ih =>
    intro h
    simp only [insertByCreatedDesc] at h
    by_cases hc : o.created_at ≥ a.created_at
    · rw [if_pos hc] at h
      rcases List.mem_cons.mp h with rfl | h2
      · exact Or.inl rfl
      · exact Or.inr h2
    · rw [if_neg hc] at h
      rcases List.mem_cons.mp h with rfl | h2
      · exact Or.inr (List.mem_cons_self _ _)
      · rcases ih h2 with h3 | h3
        · exact Or.inl h3
        · exact Or.inr (List.mem_cons_of_mem _ h3)

lemma mem_sortByCreatedDesc (x : DbOrder) :
    ∀ l : List DbOrder, x ∈ sortByCreatedDesc l → x ∈ l := by
  intro l
  induction l with
  | nil =>
    intro h
    simp [sortByCreatedDesc] at h
  | cons a t ih =>
    intro h
    have h2 : x ∈ insertByCreatedDesc a (sortByCreatedDesc t) := h
    rcases mem_insertByCreatedDesc a x _ h2 with rfl | h3
    · exact List.mem_cons_self _ _
    · exact List.mem_cons_of_mem _ (ih h3)

lemma mem_paginate (x : DbOrder) (l : List DbOrder) (off n : Nat) :
    x ∈ paginate l off n → x ∈ l := by
  intro h
  unfold paginate at h
  exact List.mem_of_mem_drop (List.mem_of_mem_take h)

lemma status_roundtrip (s : OrderStatus) :
    status_to_proto (status_to_string s) = s := by
  cases s <;> rfl

lemma orderStatusFromI32_toI32 (n : Int) (s : OrderStatus)
    (h : orderStatusFromI32 n = some s) : orderStatusToI32 s = n := by
  unfold orderStatusFromI32 at h
  split_ifs at h with h0 h1 h2 h3 h4 h5 <;>
    (injection h with hs; subst hs; simp [orderStatusToI32, *])

lemma list_orders_eval (db : Db) (req : ListOrdersRequest) :
    (list_orders db req).orders =
      (paginate (if req.status = 0 then sortByCreatedDesc db.orders
        else sortByCreatedDesc (db.orders.filter (fun o =>
          o.status = status_to_string ((orderStatusFromI32 req.status).getD .Pending))))
        ((((if req.page ≤ 0 then (1 : Int) else req.page) - 1) *
          (if req.page_size ≤ 0 ∨ req.page_size > 100 then (10 : Int)
            else req.page_size)).toNat)
        ((if req.page_size ≤ 0 ∨ req.page_size > 100 then (10 : Int)
          else req.page_size).toNat)).map (db_order_to_proto db) ∧
    (list_orders db req).total_count =
      (if req.status = 0 then (db.orders.length : Int)
       else ((db.orders.filter (fun o =>
         o.status = status_to_string ((orderStatusFromI32 req.status).getD .Pending))).length : Int)) := by
  constructor <;> rfl

lemma validateItemsTrace_of_ok (env : Env) (db : Db) :
    ∀ (items : List OrderItemReq) (v : List (OrderItemReq × Rat)),
      validateItems env db items = Except.ok v →
      validateItemsTrace env db items = perItemReads items := by
  intro items
  induction items with
  | nil => intro v _; rfl
  | cons a rest ih =>
    intro v hv
    simp only [validateItems] at hv
    by_cases h1 : a.quantity ≤ 0
    · simp [h1] at hv
    · by_cases h2 : env.checkAvailability a.product_id a.quantity
      · cases hp : get_product_price db a.product_id with
        | none =>
          rw [hp] at hv
          simp [h1, h2] at hv
        | some p =>
          rw [hp] at hv
          simp only [h1, h2, if_false, if_neg, not_false_iff, not_true,
            ite_false, ite_true] at hv
          cases hr : validateItems env db rest with
          | error e =>
            rw [hr] at hv
            simp [h1, h2] at hv
          | ok v2 =>
            have htail := ih v2 hr
            simp [validateItemsTrace, perItemReads, h1, h2, hp, htail]
      · simp [h1, h2] at hv

/-! ## Claims -/

/-- **C5**: the admission controller implements a fixed window counter per
client key: a first sighting of a key creates `{count := 1, window_start :=
now}` and allows; on a later sighting, an elapsed window resets the state to
`{count := 1, window_start := now}` and allows; under the limit the count is
incremented and the request allowed; at the limit the request is denied
without incrementing, the client map is unchanged, and the call
short-circuits with a `tooManyRequests` outcome, never reaching the
protected handler.  Consequently with `max_requests = 10` and `window = 60`,
ten requests from one key at time 0 are all allowed, the 11th request within
the window (time 59) is denied, and a request arriving 61 time units after
the window start is allowed. -/
theorem rate_limiter_fixed_window {α : Type} (cfg : RateLimitConfig)
    (cs : Clients) (cid : String) (now : Nat) (handler : α) :
    (lookupClient cs cid = none →
      rlCall cfg cs cid now =
        (true, cs ++ [(cid, { count := 1, window_start := now })])) ∧
    (∀ st, lookupClient cs cid = some st →
      (now - st.window_start > cfg.window →
        rlCall cfg cs cid now =
          (true, updateClient cs cid { count := 1, window_start := now })) ∧
      (now - st.window_start ≤ cfg.window → st.count < cfg.max_requests →
        rlCall cfg cs cid now =
          (true, updateClient cs cid { st with count := st.count + 1 })) ∧
      (now - st.window_start ≤ cfg.window → cfg.max_requests ≤ st.count →
        rlCall cfg cs cid now = (false, cs) ∧
        (rateLimitedCall cfg cs cid now handler).1 = RLOutcome.tooManyRequests ∧
        (rateLimitedCall cfg cs cid now handler).2 = cs)) ∧
    ((rlRun { max_requests := 10, window := 60 } [] (List.replicate 10 ("k", 0))).1 =
        List.replicate 10 true ∧
      (rlCall { max_requests := 10, window := 60 }
          (rlRun { max_requests := 10, window := 60 } [] (List.replicate 10 ("k", 0))).2
          "k" 59).1 = false ∧
      (rlCall { max_requests := 10, window := 60 }
          (rlRun { max_requests := 10, window := 60 } [] (List.replicate 10 ("k", 0))).2
          "k" 61).1 = true) := by
  refine ⟨?_, ?_, ?_, ?_, ?_⟩
  · intro h
    simp [rlCall, h]
  · intro st hst
    refine ⟨?_, ?_, ?_⟩
    · intro hw
      simp [rlCall, hst, hw]
    · intro hw hc
      have hw2 : ¬ now - st.window_start > cfg.window := by omega
      simp [rlCall, hst, hw2, hc]
    · intro hw hc
      have hw2 : ¬ now - st.window_start > cfg.window := by omega
      have hc2 : ¬ st.count < cfg.max_requests := by omega
      refine ⟨by simp [rlCall, hst, hw2, hc2], ?_, ?_⟩ <;>
        simp [rateLimitedCall, rlCall, hst, hw2, hc2]
  · decide
  · decide
  · decide

/-- Witness for C5: a first sighting of client "k" at time 5 is allowed and
creates the counter `{count := 1, window_start := 5}`. -/
theorem rate_limiter_fixed_window_witness :
    rlCall { max_requests := 10, window := 60 } [] "k" 5 =
      (true, [("k", { count := 1, window_start := 5 })]) := by
  have h :=
    (rate_limiter_fixed_window (α := Nat) { max_requests := 10, window := 60 }
      [] "k" 5 0).1 (by decide)
  simpa using h

/-- **C8 counterexample**: the invariant `count ≤ max_requests` does not hold
for *every* configuration.  With `max_requests = 0` the empty client map
satisfies the invariant, yet the very first sighting of key "k" stores
`count = 1 > 0 = max_requests`. -/
theorem quota_invariant_counterexample :
    quotaInv { max_requests := 0, window := 60 } [] ∧
    ¬ quotaInv { max_requests := 0, window := 60 }
        (rlCall { max_requests := 0, window := 60 } [] "k" 0).2 := by
  exact ⟨by decide, by decide⟩

/-- **C8 (amended)**: for every configuration with `max_requests ≥ 1` and
every client map in which all stored counters satisfy
`count ≤ max_requests`, one request-handling step — creation on first
sighting, window reset, increment, or denial — preserves that invariant. -/
theorem quota_invariant_preserved (cfg : RateLimitConfig)
    (hmax : 1 ≤ cfg.max_requests) (cs : Clients) (hinv : quotaInv cfg cs)
    (cid : String) (now : Nat) :
    quotaInv cfg (rlCall cfg cs cid now).2 := by
  rcases hl : lookupClient cs cid with _ | st
  · have h2 : (rlCall cfg cs cid now).2 =
        cs ++ [(cid, { count := 1, window_start := now })] := by
      simp [rlCall, hl]
    rw [h2]
    intro e he
    rcases List.mem_append.mp he with h1 | h1
    · exact hinv e h1
    · simp only [List.mem_singleton] at h1
      subst h1
      exact hmax
  · by_cases hw : now - st.window_start > cfg.window
    · have h2 : (rlCall cfg cs cid now).2 =
          updateClient cs cid { count := 1, window_start := now } := by
        simp [rlCall, hl, hw]
      rw [h2]
      exact quotaInv_updateClient cfg cs hinv cid _ hmax
    · by_cases hc : st.count < cfg.max_requests
      · have h2 : (rlCall cfg cs cid now).2 =
            updateClient cs cid { st with count := st.count + 1 } := by
          simp [rlCall, hl, hw, hc]
        rw [h2]
        exact quotaInv_updateClient cfg cs hinv cid _ hc
      · have h2 : (rlCall cfg cs cid now).2 = cs := by
          simp [rlCall, hl, hw, hc]
        rw [h2]
        exact hinv

/-- Witness for the amended C8: a concrete step at `max_requests = 1`
preserves the invariant. -/
theorem quota_invariant_preserved_witness :
    quotaInv { max_requests := 1, window := 60 }
      (rlCall { max_requests := 1, window := 60 }
        [("k", { count := 1, window_start := 0 })] "k" 10).2 :=
  quota_invariant_preserved { max_requests := 1, window := 60 } (by decide)
    [("k", { count := 1, window_start := 0 })] (by decide) "k" 10

/-- **C1**: whenever any validation step of CreateOrder fails — empty user
id, empty item list, an item with non-positive quantity, a negative user
verification, a failed availability check, or a missing price for some item
— the call returns a normal response with `success = false` and the store is
untouched: no order row, no line-item row, and no stock change, so a partial
order is never created. -/
theorem create_order_rejects_without_persisting (env : Env) (db : Db)
    (req : CreateOrderRequest) (orderId : String) (itemId : Nat → String)
    (now : Int)
    (h : req.user_id = "" ∨ req.items = [] ∨ env.verifyUser req.user_id = false ∨
      ∃ it ∈ req.items, it.quantity ≤ 0 ∨
        env.checkAvailability it.product_id it.quantity = false ∨
        get_product_price db it.product_id = none) :
    (create_order env db req orderId itemId now).1.success = false ∧
    (create_order env db req orderId itemId now).2 = db := by
  obtain ⟨msg, hmsg⟩ := validate_request_error_of env db req h
  constructor <;> simp [create_order, hmsg]

/-- Witness for C1: a request with one zero-quantity item against a
one-product store is rejected and the store is unchanged. -/
theorem create_order_rejects_without_persisting_witness :
    (create_order
        { verifyUser := fun _ => true, checkAvailability := fun _ _ => true }
        { orders := [], order_items := [],
          products := [{ id := "p1", name := "Tea", price := 2, stock_quantity := 5 }] }
        { user_id := "u1",
          items := [{ product_id := "p1", quantity := 0 }],
          shipping_address := "A" }
        "o1" (fun _ => "i1") 0).1.success = false ∧
    (create_order
        { verifyUser := fun _ => true, checkAvailability := fun _ _ => true }
        { orders := [], order_items := [],
          products := [{ id := "p1", name := "Tea", price := 2, stock_quantity := 5 }] }
        { user_id := "u1",
          items := [{ product_id := "p1", quantity := 0 }],
          shipping_address := "A" }
        "o1" (fun _ => "i1") 0).2 =
      { orders := [], order_items := [],
        products := [{ id := "p1", name := "Tea", price := 2, stock_quantity := 5 }] } :=
  create_order_rejects_without_persisting _ _ _ _ _ _
    (Or.inr (Or.inr (Or.inr ⟨{ product_id := "p1", quantity := 0 }, by decide, Or.inl (by decide)⟩)))

/-- **C4**: every rejected CancelOrder call leaves the store exactly as it
was — stock quantities, the order row and its items are unchanged (the
transaction is rolled back) — and each of the listed conditions is indeed a
rejection: the order is absent; a supplied non-empty user id differs from
the owner; the status is already `"CANCELLED"` (so a second cancellation
produces no further stock change); or the status is `"DELIVERED"` (so
cancelling a delivered order always fails without mutating stock). -/
theorem cancel_order_rejection_no_effect (db : Db) (req : CancelOrderRequest)
    (now : Int) :
    ((cancel_order db req now).1.success = false → (cancel_order db req now).2 = db) ∧
    (db.orders.find? (fun x => x.id = req.order_id) = none →
      (cancel_order db req now).1.success = false) ∧
    (∀ o, db.orders.find? (fun x => x.id = req.order_id) = some o →
      ((¬ req.user_id = "" ∧ ¬ o.user_id = req.user_id) →
        (cancel_order db req now).1.success = false) ∧
      ((req.user_id = "" ∨ o.user_id = req.user_id) → o.status = "CANCELLED" →
        (cancel_order db req now).1.success = false) ∧
      ((req.user_id = "" ∨ o.user_id = req.user_id) → o.status = "DELIVERED" →
        (cancel_order db req now).1.success = false)) := by
  by_cases h0 : req.order_id = ""
  · refine ⟨fun _ => by simp [cancel_order, h0], fun _ => by simp [cancel_order, h0], ?_⟩
    intro o ho
    exact ⟨fun _ => by simp [cancel_order, h0],
           fun _ _ => by simp [cancel_order, h0],
           fun _ _ => by simp [cancel_order, h0]⟩
  · cases hf : db.orders.find? (fun x => x.id = req.order_id) with
    | none =>
      refine ⟨fun _ => by simp [cancel_order, h0, hf], fun _ => by simp [cancel_order, h0, hf], ?_⟩
      intro o ho
      exact absurd ho (by simp)
    | some o =>
      by_cases hu : ¬ req.user_id = "" ∧ ¬ o.user_id = req.user_id
      · refine ⟨fun _ => by simp [cancel_order, h0, hf, hu],
                fun hn => absurd hn (by simp), ?_⟩
        intro o2 ho2
        have he : o = o2 := by
          injection ho2
        subst he
        refine ⟨fun _ => by simp [cancel_order, h0, hf, hu], ?_, ?_⟩ <;>
          · intro hok _
            rcases hu with ⟨hu1, hu2⟩
            rcases hok with hk | hk
            · exact absurd hk hu1
            · exact absurd hk hu2
      · by_cases hc : o.status = "CANCELLED"
        · refine ⟨fun _ => by simp [cancel_order, h0, hf, hu, hc],
                  fun hn => absurd hn (by simp), ?_⟩
          intro o2 ho2
          have he : o = o2 := by
            injection ho2
          subst he
          refine ⟨fun _ => by simp [cancel_order, h0, hf, hu, hc],
                  fun _ _ => by simp [cancel_order, h0, hf, hu, hc], ?_⟩
          intro _ hd
          rw [hc] at hd
          exact absurd hd (by decide)
        · by_cases hd : o.status = "DELIVERED"
          · refine ⟨fun _ => by simp [cancel_order, h0, hf, hu, hc, hd],
                    fun hn => absurd hn (by simp), ?_⟩
            intro o2 ho2
            have he : o = o2 := by
              injection ho2
            subst he
            refine ⟨fun _ => by simp [cancel_order, h0, hf, hu, hc, hd], ?_,
                    fun _ _ => by simp [cancel_order, h0, hf, hu, hc, hd]⟩
            intro _ hcc
            rw [hd] at hcc
            exact absurd hcc (by decide)
          · have hsucc : (cancel_order db req now).1.success = true := by
              simp [cancel_order, h0, hf, hu, hc, hd]
            refine ⟨fun hfail => ?_, fun hn => absurd hn (by simp), ?_⟩
            · rw [hsucc] at hfail
              exact absurd hfail (by decide)
            · intro o2 ho2
              have he : o = o2 := by
                injection ho2
              subst he
              exact ⟨fun hcon => absurd hcon hu,
                     fun _ hcc => absurd hcc hc,
                     fun _ hdd => absurd hdd hd⟩

/-- Witness for C4: cancelling an already-cancelled order fails and leaves
the store (including stock) unchanged. -/
theorem cancel_order_rejection_no_effect_witness :
    (cancel_order
        { orders := [{ id := "o1", user_id := "u1", total_amount := 4,
                       status := "CANCELLED", shipping_address := some "A",
                       created_at := 1, updated_at := 2 }],
          order_items := [{ id := "i1", order_id := "o1", product_id := "p1",
                            quantity := 2, price := 2 }],
          products := [{ id := "p1", name := "Tea", price := 2, stock_quantity := 5 }] }
        { order_id := "o1", user_id := "u1" } 9).1.success = false ∧
    (cancel_order
        { orders := [{ id := "o1", user_id := "u1", total_amount := 4,
                       status := "CANCELLED", shipping_address := some "A",
                       created_at := 1, updated_at := 2 }],
          order_items := [{ id := "i1", order_id := "o1", product_id := "p1",
                            quantity := 2, price := 2 }],
          products := [{ id := "p1", name := "Tea", price := 2, stock_quantity := 5 }] }
        { order_id := "o1", user_id := "u1" } 9).2 =
      { orders := [{ id := "o1", user_id := "u1", total_amount := 4,
                     status := "CANCELLED", shipping_address := some "A",
                     created_at := 1, updated_at := 2 }],
        order_items := [{ id := "i1", order_id := "o1", product_id := "p1",
                          quantity := 2, price := 2 }],
        products := [{ id := "p1", name := "Tea", price := 2, stock_quantity := 5 }] } := by
  have T := cancel_order_rejection_no_effect
    { orders := [{ id := "o1", user_id := "u1", total_amount := 4,
                   status := "CANCELLED", shipping_address := some "A",
                   created_at := 1, updated_at := 2 }],
      order_items := [{ id := "i1", order_id := "o1", product_id := "p1",
                        quantity := 2, price := 2 }],
      products := [{ id := "p1", name := "Tea", price := 2, stock_quantity := 5 }] }
    { order_id := "o1", user_id := "u1" } 9
  have hs := (T.2.2 { id := "o1", user_id := "u1", total_amount := 4,
                      status := "CANCELLED", shipping_address := some "A",
                      created_at := 1, updated_at := 2 } (by decide)).2.1
    (Or.inr rfl) rfl
  exact ⟨hs, T.1 hs⟩

/-- **C6 counterexample**: an UpdateOrder request with an empty
shippingAddress does **not** leave the stored shipping address unchanged:
on an order whose stored address is `some "A"`, the update binds SQL NULL
and the stored address becomes `none`. -/
theorem update_order_empty_address_not_preserved :
    (({ orders := [{ id := "o1", user_id := "u1", total_amount := 4,
                     status := "PENDING", shipping_address := some "A",
                     created_at := 1, updated_at := 1 }],
        order_items := [], products := [] } : Db).orders.map
      (fun o => o.shipping_address)) = [some "A"] ∧
    ((update_order
        { orders := [{ id := "o1", user_id := "u1", total_amount := 4,
                       status := "PENDING", shipping_address := some "A",
                       created_at := 1, updated_at := 1 }],
          order_items := [], products := [] }
        { order_id := "o1", status := 1, shipping_address := "" } 7).2.orders.map
      (fun o => o.shipping_address)) = [none] :=
  ⟨by decide, by decide⟩

/-- **C6 (amended)**: for every UpdateOrder call on an existing order, the
status column is unconditionally overwritten; an empty request
shippingAddress **clears** the stored shipping address to NULL (rather than
leaving it unchanged), while a non-empty one overwrites it; `user_id`,
`total_amount` and `created_at` of every order row, the rows of other
orders, the line items, and the product stock are unchanged in every
case. -/
theorem update_order_overwrites_status_and_address (db : Db)
    (req : UpdateOrderRequest) (now : Int)
    (hid : ¬ req.order_id = "") (hex : ∃ o ∈ db.orders, o.id = req.order_id) :
    (update_order db req now).1.success = true ∧
    (update_order db req now).2.orders = db.orders.map (fun o =>
      if o.id = req.order_id then
        { o with
          status := status_to_string ((orderStatusFromI32 req.status).getD .Pending),
          shipping_address :=
            if req.shipping_address = "" then none else some req.shipping_address,
          updated_at := now }
      else o) ∧
    (update_order db req now).2.order_items = db.order_items ∧
    (update_order db req now).2.products = db.products :=
  update_order_result db req now hid hex

/-- Witness for the amended C6 at a concrete order. -/
theorem update_order_overwrites_status_and_address_witness :
    (update_order
        { orders := [{ id := "o1", user_id := "u1", total_amount := 4,
                       status := "PENDING", shipping_address := some "A",
                       created_at := 1, updated_at := 1 }],
          order_items := [], products := [] }
        { order_id := "o1", status := 3, shipping_address := "B" } 7).1.success = true ∧
    (update_order
        { orders := [{ id := "o1", user_id := "u1", total_amount := 4,
                       status := "PENDING", shipping_address := some "A",
                       created_at := 1, updated_at := 1 }],
          order_items := [], products := [] }
        { order_id := "o1", status := 3, shipping_address := "B" } 7).2.order_items = [] := by
  have h := update_order_overwrites_status_and_address
    { orders := [{ id := "o1", user_id := "u1", total_amount := 4,
                   status := "PENDING", shipping_address := some "A",
                   created_at := 1, updated_at := 1 }],
      order_items := [], products := [] }
    { order_id := "o1", status := 3, shipping_address := "B" } 7 (by decide)
    ⟨{ id := "o1", user_id := "u1", total_amount := 4,
       status := "PENDING", shipping_address := some "A",
       created_at := 1, updated_at := 1 }, by decide, rfl⟩
  exact ⟨h.1, h.2.2.1⟩

/-- **C10**: an UpdateOrder request whose wire status is not one of the six
defined `OrderStatus` enum values is not rejected: `try_from` fails, the
value is silently coerced to `Pending`, and the targeted order's stored
status is overwritten to `"PENDING"`. -/
theorem update_order_unknown_status_pending (db : Db) (req : UpdateOrderRequest)
    (now : Int) (hid : ¬ req.order_id = "")
    (hex : ∃ o ∈ db.orders, o.id = req.order_id)
    (hstat : orderStatusFromI32 req.status = none) :
    (update_order db req now).1.success = true ∧
    ∀ o ∈ (update_order db req now).2.orders, o.id = req.order_id →
      o.status = "PENDING" := by
  have h := update_order_result db req now hid hex
  refine ⟨h.1, ?_⟩
  intro o ho hoid2
  rw [h.2.1] at ho
  simp only [List.mem_map] at ho
  obtain ⟨x, hx, hxo⟩ := ho
  by_cases hxid : x.id = req.order_id
  · rw [if_pos hxid] at hxo
    rw [← hxo]
    simp [hstat, status_to_string]
  · rw [if_neg hxid] at hxo
    rw [← hxo] at hoid2
    exact absurd hoid2 hxid

/-- Witness for C10: wire status 99 is accepted and stored as "PENDING". -/
theorem update_order_unknown_status_pending_witness :
    (update_order
        { orders := [{ id := "o1", user_id := "u1", total_amount := 4,
                       status := "SHIPPED", shipping_address := some "A",
                       created_at := 1, updated_at := 1 }],
          order_items := [], products := [] }
        { order_id := "o1", status := 99, shipping_address := "" } 7).1.success = true ∧
    ∀ o ∈ (update_order
        { orders := [{ id := "o1", user_id := "u1", total_amount := 4,
                       status := "SHIPPED", shipping_address := some "A",
                       created_at := 1, updated_at := 1 }],
          order_items := [], products := [] }
        { order_id := "o1", status := 99, shipping_address := "" } 7).2.orders,
      o.id = "o1" → o.status = "PENDING" :=
  update_order_unknown_status_pending
    { orders := [{ id := "o1", user_id := "u1", total_amount := 4,
                   status := "SHIPPED", shipping_address := some "A",
                   created_at := 1, updated_at := 1 }],
      order_items := [], products := [] }
    { order_id := "o1", status := 99, shipping_address := "" } 7 (by decide)
    ⟨{ id := "o1", user_id := "u1", total_amount := 4,
       status := "SHIPPED", shipping_address := some "A",
       created_at := 1, updated_at := 1 }, by decide, rfl⟩ (by decide)

/-- **C2**: for every successful CreateOrder (with a fresh order id), the
persisted `total_amount` equals the sum over the order's stored line items
of `unit_price * quantity` as captured at creation time, and a later catalog
price change (`setPrice`) leaves the order rows, the item rows, and the
read-path `unit_price`/`subtotal` values — which are recomputed only from
the stored item price — unchanged. -/
theorem create_order_total_snapshot (env : Env) (db : Db)
    (req : CreateOrderRequest) (orderId : String) (itemId : Nat → String)
    (now : Int)
    (hfresh : ∀ o ∈ db.orders, ¬ o.id = orderId)
    (hfreshItems : ∀ it ∈ db.order_items, ¬ it.order_id = orderId)
    (hsucc : (create_order env db req orderId itemId now).1.success = true) :
    ∃ row, ((create_order env db req orderId itemId now).2.orders.find?
        (fun o => o.id = orderId)) = some row ∧
      row.total_amount =
        (((create_order env db req orderId itemId now).2.order_items.filter
            (fun it => it.order_id = orderId)).map
          (fun it => it.price * (it.quantity : Rat))).sum ∧
      ∀ pid np,
        (setPrice (create_order env db req orderId itemId now).2 pid np).orders =
          (create_order env db req orderId itemId now).2.orders ∧
        (setPrice (create_order env db req orderId itemId now).2 pid np).order_items =
          (create_order env db req orderId itemId now).2.order_items ∧
        (get_order_items (setPrice (create_order env db req orderId itemId now).2 pid np)
            orderId).map (fun it => it.unit_price) =
          (get_order_items (create_order env db req orderId itemId now).2 orderId).map
            (fun it => it.unit_price) ∧
        (get_order_items (setPrice (create_order env db req orderId itemId now).2 pid np)
            orderId).map (fun it => it.subtotal) =
          (get_order_items (create_order env db req orderId itemId now).2 orderId).map
            (fun it => it.subtotal) := by
  cases hv : validate_request env db req with
  | error msg => simp [create_order, hv] at hsucc
  | ok vitems =>
    have hfilter := filter_fresh_append db.order_items
      (newItemRows itemId orderId vitems 0) orderId hfreshItems
      (newItemRows_order_id itemId orderId vitems 0)
    refine ⟨{ id := orderId, user_id := req.user_id,
              total_amount := orderTotal vitems, status := "PENDING",
              shipping_address := if req.shipping_address = "" then none
                else some req.shipping_address,
              created_at := now, updated_at := now }, ?_, ?_, ?_⟩
    · simp only [create_order, hv]
      exact find?_fresh_append db.orders _ orderId hfresh rfl
    · simp only [create_order, hv]
      rw [hfilter, newItemRows_sum itemId orderId vitems 0]
    · intro pid np
      refine ⟨rfl, rfl, ?_, ?_⟩ <;>
        · simp only [get_order_items, List.map_map]
          rfl

/-- Witness for C2: one item of quantity 2 at price 2 yields a stored total
of 4 = 2 * 2, robust to a later catalog price change. -/
theorem create_order_total_snapshot_witness :
    ∃ row, ((create_order
        { verifyUser := fun _ => true, checkAvailability := fun _ _ => true }
        { orders := [], order_items := [],
          products := [{ id := "p1", name := "Tea", price := 2, stock_quantity := 5 }] }
        { user_id := "u1", items := [{ product_id := "p1", quantity := 2 }],
          shipping_address := "A" }
        "o1" (fun _ => "i1") 0).2.orders.find?
        (fun o => o.id = "o1")) = some row ∧
      row.total_amount =
        (((create_order
            { verifyUser := fun _ => true, checkAvailability := fun _ _ => true }
            { orders := [], order_items := [],
              products := [{ id := "p1", name := "Tea", price := 2, stock_quantity := 5 }] }
            { user_id := "u1", items := [{ product_id := "p1", quantity := 2 }],
              shipping_address := "A" }
            "o1" (fun _ => "i1") 0).2.order_items.filter
            (fun it => it.order_id = "o1")).map
          (fun it => it.price * (it.quantity : Rat))).sum ∧
      ∀ pid np,
        (setPrice (create_order
            { verifyUser := fun _ => true, checkAvailability := fun _ _ => true }
            { orders := [], order_items := [],
              products := [{ id := "p1", name := "Tea", price := 2, stock_quantity := 5 }] }
            { user_id := "u1", items := [{ product_id := "p1", quantity := 2 }],
              shipping_address := "A" }
            "o1" (fun _ => "i1") 0).2 pid np).orders =
          (create_order
            { verifyUser := fun _ => true, checkAvailability := fun _ _ => true }
            { orders := [], order_items := [],
              products := [{ id := "p1", name := "Tea", price := 2, stock_quantity := 5 }] }
            { user_id := "u1", items := [{ product_id := "p1", quantity := 2 }],
              shipping_address := "A" }
            "o1" (fun _ => "i1") 0).2.orders ∧
        (setPrice (create_order
            { verifyUser := fun _ => true, checkAvailability := fun _ _ => true }
            { orders := [], order_items := [],
              products := [{ id := "p1", name := "Tea", price := 2, stock_quantity := 5 }] }
            { user_id := "u1", items := [{ product_id := "p1", quantity := 2 }],
              shipping_address := "A" }
            "o1" (fun _ => "i1") 0).2 pid np).order_items =
          (create_order
            { verifyUser := fun _ => true, checkAvailability := fun _ _ => true }
            { orders := [], order_items := [],
              products := [{ id := "p1", name := "Tea", price := 2, stock_quantity := 5 }] }
            { user_id := "u1", items := [{ product_id := "p1", quantity := 2 }],
              shipping_address := "A" }
            "o1" (fun _ => "i1") 0).2.order_items ∧
        (get_order_items (setPrice (create_order
            { verifyUser := fun _ => true, checkAvailability := fun _ _ => true }
            { orders := [], order_items := [],
              products := [{ id := "p1", name := "Tea", price := 2, stock_quantity := 5 }] }
            { user_id := "u1", items := [{ product_id := "p1", quantity := 2 }],
              shipping_address := "A" }
            "o1" (fun _ => "i1") 0).2 pid np)
            "o1").map (fun it => it.unit_price) =
          (get_order_items (create_order
            { verifyUser := fun _ => true, checkAvailability := fun _ _ => true }
            { orders := [], order_items := [],
              products := [{ id := "p1", name := "Tea", price := 2, stock_quantity := 5 }] }
            { user_id := "u1", items := [{ product_id := "p1", quantity := 2 }],
              shipping_address := "A" }
            "o1" (fun _ => "i1") 0).2 "o1").map
            (fun it => it.unit_price) ∧
        (get_order_items (setPrice (create_order
            { verifyUser := fun _ => true, checkAvailability := fun _ _ => true }
            { orders := [], order_items := [],
              products := [{ id := "p1", name := "Tea", price := 2, stock_quantity := 5 }] }
            { user_id := "u1", items := [{ product_id := "p1", quantity := 2 }],
              shipping_address := "A" }
            "o1" (fun _ => "i1") 0).2 pid np)
            "o1").map (fun it => it.subtotal) =
          (get_order_items (create_order
            { verifyUser := fun _ => true, checkAvailability := fun _ _ => true }
            { orders := [], order_items := [],
              products := [{ id := "p1", name := "Tea", price := 2, stock_quantity := 5 }] }
            { user_id := "u1", items := [{ product_id := "p1", quantity := 2 }],
              shipping_address := "A" }
            "o1" (fun _ => "i1") 0).2 "o1").map
            (fun it => it.subtotal) :=
  create_order_total_snapshot
    { verifyUser := fun _ => true, checkAvailability := fun _ _ => true }
    { orders := [], order_items := [],
      products := [{ id := "p1", name := "Tea", price := 2, stock_quantity := 5 }] }
    { user_id := "u1", items := [{ product_id := "p1", quantity := 2 }],
      shipping_address := "A" }
    "o1" (fun _ => "i1") 0 (by decide) (by decide) (by decide)

/-- **C3**: a successful CreateOrder (fresh order id) decrements each
product's stock by exactly the total quantity the request orders for it, and
a subsequent CancelOrder by the owner (or with an empty user id) succeeds
and increments each of those products' stock by exactly the same quantity —
the exact inverse — so after create-then-cancel every product's stock equals
its value before the create. -/
theorem create_then_cancel_restores_stock (env : Env) (db : Db)
    (req : CreateOrderRequest) (orderId : String) (itemId : Nat → String)
    (now now2 : Int) (cuid : String)
    (hfresh : ∀ o ∈ db.orders, ¬ o.id = orderId)
    (hfreshItems : ∀ it ∈ db.order_items, ¬ it.order_id = orderId)
    (hOid : ¬ orderId = "")
    (huid : cuid = "" ∨ cuid = req.user_id)
    (hsucc : (create_order env db req orderId itemId now).1.success = true) :
    (create_order env db req orderId itemId now).2.products =
      db.products.map (fun p =>
        { p with stock_quantity := p.stock_quantity - orderedQty req.items p.id }) ∧
    (cancel_order (create_order env db req orderId itemId now).2
        { order_id := orderId, user_id := cuid } now2).1.success = true ∧
    (cancel_order (create_order env db req orderId itemId now).2
        { order_id := orderId, user_id := cuid } now2).2.products = db.products := by
  cases hv : validate_request env db req with
  | error msg => simp [create_order, hv] at hsucc
  | ok vitems =>
    obtain ⟨huser, hval⟩ := validate_request_ok_parts env db req vitems hv
    have hfst := validateItems_ok_fst env db req.items vitems hval
    have hfilter := filter_fresh_append db.order_items
      (newItemRows itemId orderId vitems 0) orderId hfreshItems
      (newItemRows_order_id itemId orderId vitems 0)
    have hdb2 : (create_order env db req orderId itemId now).2 =
        { orders := db.orders ++
            [{ id := orderId, user_id := req.user_id,
               total_amount := orderTotal vitems, status := "PENDING",
               shipping_address := if req.shipping_address = "" then none
                 else some req.shipping_address,
               created_at := now, updated_at := now }],
          order_items := db.order_items ++ newItemRows itemId orderId vitems 0,
          products := applyDecStock db.products vitems } := by
      simp only [create_order, hv]
    have hucond : ¬ (¬ cuid = "" ∧ ¬ req.user_id = cuid) := by
      rcases huid with rfl | rfl
      · intro hcon
        exact hcon.1 rfl
      · intro hcon
        exact hcon.2 rfl
    have hprodRestore :
        applyIncStock (applyDecStock db.products vitems)
          (newItemRows itemId orderId vitems 0) = db.products := by
      rw [applyDecStock_eq_map, applyIncStock_eq_map, List.map_map]
      have hfun : ((fun p : DbProduct =>
          { p with stock_quantity := p.stock_quantity +
              restoredQty (newItemRows itemId orderId vitems 0) p.id }) ∘
          (fun p : DbProduct =>
            { p with stock_quantity := p.stock_quantity -
                orderedQty (vitems.map Prod.fst) p.id })) = fun p => p := by
        funext p
        obtain ⟨a, b, c, d⟩ := p
        simp [Function.comp, restoredQty_newItemRows itemId orderId vitems 0 a]
      rw [hfun]
      simp
    have hcancel := cancel_order_success_eval
      { orders := db.orders ++
          [{ id := orderId, user_id := req.user_id,
             total_amount := orderTotal vitems, status := "PENDING",
             shipping_address := if req.shipping_address = "" then none
               else some req.shipping_address,
             created_at := now, updated_at := now }],
        order_items := db.order_items ++ newItemRows itemId orderId vitems 0,
        products := applyDecStock db.products vitems }
      { order_id := orderId, user_id := cuid } now2
      ({ id := orderId, user_id := req.user_id,
         total_amount := orderTotal vitems, status := "PENDING",
         shipping_address := if req.shipping_address = "" then none
           else some req.shipping_address,
         created_at := now, updated_at := now })
      (newItemRows itemId orderId vitems 0)
      hOid
      (find?_fresh_append db.orders _ orderId hfresh rfl)
      hucond (by simp) (by simp) hfilter
    rw [hdb2]
    refine ⟨?_, hcancel.1, hcancel.2.trans hprodRestore⟩
    exact (applyDecStock_eq_map vitems db.products).trans (by rw [hfst])

/-- Witness for C3: stock of "p1" starts at 5, the order takes 2, the
cancellation restores them: the final catalog equals the initial one. -/
theorem create_then_cancel_restores_stock_witness :
    (cancel_order (create_order
        { verifyUser := fun _ => true, checkAvailability := fun _ _ => true }
        { orders := [], order_items := [],
          products := [{ id := "p1", name := "Tea", price := 2, stock_quantity := 5 }] }
        { user_id := "u1", items := [{ product_id := "p1", quantity := 2 }],
          shipping_address := "A" }
        "o1" (fun _ => "i1") 0).2
      { order_id := "o1", user_id := "u1" } 3).2.products =
      [{ id := "p1", name := "Tea", price := 2, stock_quantity := 5 }] := by
  have h := create_then_cancel_restores_stock
    { verifyUser := fun _ => true, checkAvailability := fun _ _ => true }
    { orders := [], order_items := [],
      products := [{ id := "p1", name := "Tea", price := 2, stock_quantity := 5 }] }
    { user_id := "u1", items := [{ product_id := "p1", quantity := 2 }],
      shipping_address := "A" }
    "o1" (fun _ => "i1") 0 3 "u1"
    (by decide) (by decide) (by decide) (Or.inr rfl) (by decide)
  exact h.2.2

/-- **C7 counterexample**: the wire value of Pending is 0, which
`list_orders` interprets as "all statuses", so requesting Pending does not
filter: on a store holding one CONFIRMED order, the request returns that
order (whose status is not Pending) and counts all rows. -/
theorem list_orders_pending_value_counterexample :
    (list_orders
        { orders := [{ id := "o1", user_id := "u1", total_amount := 4,
                       status := "CONFIRMED", shipping_address := none,
                       created_at := 1, updated_at := 1 }],
          order_items := [], products := [] }
        { page := 1, page_size := 10, status := orderStatusToI32 .Pending }).total_count = 1 ∧
    ¬ (∀ o ∈ (list_orders
        { orders := [{ id := "o1", user_id := "u1", total_amount := 4,
                       status := "CONFIRMED", shipping_address := none,
                       created_at := 1, updated_at := 1 }],
          order_items := [], products := [] }
        { page := 1, page_size := 10, status := orderStatusToI32 .Pending }).orders,
        o.status = orderStatusToI32 OrderStatus.Pending) :=
  ⟨by decide, by decide⟩

/-- **C7 (amended)**: in ListOrders the wire value 0 — which is also
Pending's wire value — means "all statuses": the page draws from the full
order table and `total_count` counts every stored order, so Pending cannot
be requested as a specific filter.  For every other defined wire value, each
returned order carries exactly the requested status and `total_count`
counts exactly the rows with that status, independent of the requested
page. -/
theorem list_orders_status_filter (db : Db) (req : ListOrdersRequest) :
    (req.status = 0 →
      (list_orders db req).total_count = (db.orders.length : Int) ∧
      ∀ o ∈ (list_orders db req).orders, ∃ r ∈ db.orders, o = db_order_to_proto db r) ∧
    (∀ s, orderStatusFromI32 req.status = some s → ¬ req.status = 0 →
      (list_orders db req).total_count =
        ((db.orders.filter (fun r => r.status = status_to_string s)).length : Int) ∧
      ∀ o ∈ (list_orders db req).orders, o.status = req.status ∧
        ∃ r ∈ db.orders, r.status = status_to_string s ∧ o = db_order_to_proto db r) := by
  obtain ⟨horders, hcount⟩ := list_orders_eval db req
  constructor
  · intro h0
    constructor
    · rw [hcount, if_pos h0]
    · intro o ho
      rw [horders, if_pos h0] at ho
      simp only [List.mem_map] at ho
      obtain ⟨r, hr, rfl⟩ := ho
      exact ⟨r, mem_sortByCreatedDesc r _ (mem_paginate r _ _ _ hr), rfl⟩
  · intro s hs hne
    constructor
    · rw [hcount, if_neg hne, hs]
      rfl
    · intro o ho
      rw [horders, if_neg hne, hs] at ho
      simp only [List.mem_map] at ho
      obtain ⟨r, hr, rfl⟩ := ho
      have hr2 := mem_sortByCreatedDesc r _ (mem_paginate r _ _ _ hr)
      rw [List.mem_filter] at hr2
      have hstat : r.status = status_to_string s := by
        have h3 := hr2.2
        simpa using h3
      constructor
      · show orderStatusToI32 (status_to_proto r.status) = req.status
        rw [hstat, status_roundtrip]
        exact orderStatusFromI32_toI32 req.status s hs
      · exact ⟨r, hr2.1, hstat, rfl⟩

/-- Witness for the amended C7: with one CONFIRMED and one PENDING order,
requesting status 1 (Confirmed) counts exactly one row. -/
theorem list_orders_status_filter_witness :
    (list_orders
        { orders := [{ id := "o1", user_id := "u1", total_amount := 4,
                       status := "CONFIRMED", shipping_address := none,
                       created_at := 1, updated_at := 1 },
                     { id := "o2", user_id := "u1", total_amount := 3,
                       status := "PENDING", shipping_address := none,
                       created_at := 2, updated_at := 2 }],
          order_items := [], products := [] }
        { page := 1, page_size := 10, status := 1 }).total_count = 1 := by
  have h := (list_orders_status_filter
    { orders := [{ id := "o1", user_id := "u1", total_amount := 4,
                   status := "CONFIRMED", shipping_address := none,
                   created_at := 1, updated_at := 1 },
                 { id := "o2", user_id := "u1", total_amount := 3,
                   status := "PENDING", shipping_address := none,
                   created_at := 2, updated_at := 2 }],
      order_items := [], products := [] }
    { page := 1, page_size := 10, status := 1 }).2
    OrderStatus.Confirmed (by decide) (by decide)
  rw [h.1]
  decide

/-- **C9 counterexample**: the price read of the create-order workflow is
*not* an RPC round trip through the catalog collaborator: on a concrete
one-item request the interaction trace contains a price read performed
directly against shared storage (`get_product_price` is a sqlx query on
`self.db`), falsifying "both availability and price are read via the
collaborator's RPC". -/
theorem create_order_price_read_not_rpc :
    ¬ (∀ a ∈ create_order_trace
          { verifyUser := fun _ => true, checkAvailability := fun _ _ => true }
          { orders := [], order_items := [],
            products := [{ id := "p1", name := "Tea", price := 2, stock_quantity := 5 }] }
          { user_id := "u1", items := [{ product_id := "p1", quantity := 1 }],
            shipping_address := "A" } "o1",
        a.isPriceRead = true → a.chan = Chan.rpc) := by
  decide

/-- **C9 (amended)**: in CreateOrder the availability check for each item is
an RPC round trip through the catalog collaborator, while the price read
and the stock decrement both bypass that interface and address shared
storage directly; when validation succeeds, the orchestrator performs
exactly one availability RPC followed by one direct-storage price read per
item, in request order. -/
theorem create_order_access_channels (env : Env) (db : Db)
    (req : CreateOrderRequest) (orderId : String) :
    (∀ a ∈ create_order_trace env db req orderId,
      (a.isAvailCheck = true → a.chan = Chan.rpc) ∧
      (a.isPriceRead = true → a.chan = Chan.directDb) ∧
      (a.isStockWrite = true → a.chan = Chan.directDb)) ∧
    (∀ v, validateItems env db req.items = Except.ok v →
      validateItemsTrace env db req.items = perItemReads req.items) := by
  constructor
  · intro a _
    refine ⟨?_, ?_, ?_⟩ <;>
      · cases a <;>
          simp [Access.chan, Access.isAvailCheck, Access.isPriceRead, Access.isStockWrite]
  · intro v hv
    exact validateItemsTrace_of_ok env db req.items v hv

/-- Witness for the amended C9: on a concrete one-item request the
validation trace is exactly one availability check followed by one price
read. -/
theorem create_order_access_channels_witness :
    validateItemsTrace
        { verifyUser := fun _ => true, checkAvailability := fun _ _ => true }
        { orders := [], order_items := [],
          products := [{ id := "p1", name := "Tea", price := 2, stock_quantity := 5 }] }
        [{ product_id := "p1", quantity := 1 }] =
      perItemReads [{ product_id := "p1", quantity := 1 }] := by
  have h := (create_order_access_channels
    { verifyUser := fun _ => true, checkAvailability := fun _ _ => true }
    { orders := [], order_items := [],
      products := [{ id := "p1", name := "Tea", price := 2, stock_quantity := 5 }] }
    { user_id := "u1", items := [{ product_id := "p1", quantity := 1 }],
      shipping_address := "A" } "o1").2
  exact h [({ product_id := "p1", quantity := 1 }, 2)] rfl

end ECommerce
